import Mathlib

/-!
Shallow embedding of `generate.py` (TRELLIS.2 Image-to-3D generator for the
Sakura DOK dispatcher).  The script is a linear six-stage pipeline; every
externally-fallible call (network, filesystem, imports, CUDA, model ops) is
modelled by an oracle field of `World` giving that call's outcome, and the
run is rendered as a trace of observable events (log lines, network calls,
environment mutations, file writes) plus a control outcome.

Modelling conventions, noted where they matter:
* Python exception objects are carried as their message `String`.
* `traceback.print_exc()` diagnostic dumps are elided from the trace
  (they add no observable the claims mention).
* float formatting (`:.2f`) is elided: such values are carried as
  pre-rendered text fields of `World`, and the trailing `, ... MB` part of
  the export log line is dropped.
* `sys.path.insert` is folded into the `trellis2`/`o_voxel` import outcome.
-/

namespace Trellis2Dok

/-- A mesh as handled by the pipeline.  `vertices` and `faces` are the
element counts the script logs; the remaining fields stand in for the opaque
buffers the exporter consumes (`mesh.attrs`, `mesh.coords`, `mesh.layout`,
`mesh.voxel_size`). -/
structure Mesh where
  vertices : Nat
  faces : Nat
  attrs : Nat
  coords : Nat
  layout : Nat
  voxel_size : Nat
  deriving DecidableEq, Repr

/-- Observable events of a run, in program order. -/
inductive Event where
  /-- module-level `open(log_path, 'w')` -/
  | openLog
  /-- `log_file.close()` in the `finally` block -/
  | closeLog
  /-- one `print(...)` line (mirrored to console and run.log by `Tee`) -/
  | log (line : String)
  /-- `os.environ[key] = val` -/
  | setEnv (key val : String)
  /-- `requests.get(image_url, timeout=60, headers=...)` -/
  | netGet (url : String)
  /-- writing the downloaded bytes to `/tmp/input.png` -/
  | writeTmp (path : String)
  /-- `huggingface_hub.snapshot_download(repo_id=...)` -/
  | snapshotDownload (repo : String)
  /-- `Trellis2ImageTo3DPipeline.from_pretrained(model_path)` -/
  | loadPipeline (path : String)
  /-- `pipeline.cuda()` -/
  | moveCuda
  /-- `pipeline.run(image)` under `torch.no_grad()` -/
  | runInference
  /-- `mesh.simplify(target)` -/
  | simplifyCall (target : Nat)
  /-- `o_voxel.postprocess.to_glb(vertices=m.vertices, ...)` -/
  | exportCall (m : Mesh)
  /-- `glb.export(glb_path, extension_webp=True)` -/
  | writeGlb (path : String)
  deriving DecidableEq, Repr

/-- The configuration read from the process environment at start:
`IMAGE_URL`, `HF_TOKEN`, and `SAKURA_ARTIFACT_DIR` (the latter already
resolved against its default `/opt/artifact`). -/
structure Config where
  imageUrl : Option String
  hfToken : Option String
  artifactDir : String

/-- Outcomes of every externally-fallible call the script makes, fixed up
front as an oracle.  `Except.error e` means the call raises an exception
with message `e`. -/
structure World where
  /-- `import requests / PIL / torch` and the version queries -/
  depsImport : Except String Unit
  torchVersion : String
  /-- `torch.cuda.is_available()` -/
  cudaAvailable : Bool
  cudaVersion : String
  gpuName : String
  /-- `total_memory / 1e9` already rendered as text (`:.2f` elided) -/
  gpuMemText : String
  /-- `requests.get` + `raise_for_status`; `ok n` = body of `n` bytes -/
  fetch : Except String Nat
  /-- `open('/tmp/input.png','wb')` + `f.write(...)` (NOT inside a `try`) -/
  tmpWrite : Except String Unit
  /-- `Image.open(input_path).convert('RGBA')`; `ok (a, b)` = image size -/
  decode : Except String (Nat × Nat)
  /-- `from trellis2.pipelines import ...` and `import o_voxel` -/
  trellisImport : Except String Unit
  /-- `os.path.exists(config_path)` at the time `main` runs -/
  configCached : Bool
  /-- `snapshot_download(repo_id='microsoft/TRELLIS.2-4B', ...)` -/
  download : Except String Unit
  /-- `Trellis2ImageTo3DPipeline.from_pretrained(model_path)` -/
  loadPipe : Except String Unit
  /-- `pipeline.cuda()` -/
  toCuda : Except String Unit
  /-- `torch.cuda.memory_allocated(0) / 1e9` rendered as text -/
  memAllocText : String
  /-- `torch.cuda.memory_reserved(0) / 1e9` rendered as text -/
  memReservedText : String
  /-- `pipeline.run(image)`; `ok ms` = the candidate mesh list -/
  generate : Except String (List Mesh)
  /-- `mesh.simplify(16777216)`: `ok m2` = the in-place simplified mesh;
  on `error` the mesh is left unchanged -/
  simplify : Mesh → Except String Mesh
  /-- `to_glb(...)` + `glb.export(...)` + `os.path.getsize`; `ok n` = size
  (`export` is a Lean keyword, hence the `Op` suffix) -/
  exportOp : Mesh → Except String Nat

/-- Control outcome of a stage: continue with a value, `return False`
(guarded failure), or an exception escaping `main` uncaught. -/
inductive StageOut (α : Type) where
  | cont (a : α)
  | halt
  | raise (e : String)

/-- Result of `main`: a returned boolean or an uncaught exception. -/
inductive MainRes where
  | ret (b : Bool)
  | raise (e : String)
  deriving DecidableEq, Repr

/-- Sequencing of guarded stages: short-circuit on `halt` and `raise`. -/
def step {α β : Type} :
    List Event × StageOut α → (α → List Event × StageOut β) →
    List Event × StageOut β
  | (tr, .cont a), f => (tr ++ (f a).1, (f a).2)
  | (tr, .halt), _ => (tr, .halt)
  | (tr, .raise e), _ => (tr, .raise e)

/-- Prefix a trace onto a stage result. -/
def prepend {α : Type} (tr : List Event) (x : List Event × StageOut α) :
    List Event × StageOut α :=
  (tr ++ x.1, x.2)

/-- `"=" * 60`, the banner rule. -/
def line60 : String := String.pushn "" '=' 60

/-- The fixed local model cache directory. -/
def modelPath : String := "/app/models/TRELLIS.2-4B"

/-- The model-registry entry downloaded on cache miss. -/
def repoId : String := "microsoft/TRELLIS.2-4B"

/-- The fixed temporary path for the raw downloaded image. -/
def inputPath : String := "/tmp/input.png"

/-- `mesh.simplify(16777216)  # nvdiffrast limit` -/
def nvdiffrastLimit : Nat := 16777216

/-- The four header lines printed at the top of `main`. -/
def bannerEvents : List Event :=
  [Event.log line60,
   Event.log "TRELLIS.2 Image-to-3D Generator for Sakura DOK",
   Event.log line60,
   Event.log ""]

/-- The three terminal lines printed when every stage succeeded. -/
def successBanner : List Event :=
  [Event.log line60,
   Event.log "SUCCESS - 3D asset generated",
   Event.log line60]

/-- Stage 1, Environment Validator (`generate.py` lines 33-40): read
`IMAGE_URL`; absent means log an ERROR and `return False`. -/
def checkEnv (c : Config) : List Event × StageOut String :=
  match c.imageUrl with
  | none =>
      ([Event.log "Checking environment...",
        Event.log "ERROR: IMAGE_URL environment variable not set"], .halt)
  | some url =>
      ([Event.log "Checking environment...",
        Event.log s!"IMAGE_URL: {url}",
        Event.log ""], .cont url)

/-- Stage 2, Dependency Prober (lines 42-61): import the numeric stack and
probe CUDA; either failure logs an ERROR and returns False. -/
def importDeps (w : World) : List Event × StageOut Unit :=
  match w.depsImport with
  | .error e =>
      ([Event.log "Importing dependencies...",
        Event.log s!"ERROR: Failed to import dependencies: {e}"], .halt)
  | .ok _ =>
      let tv := w.torchVersion
      if w.cudaAvailable then
        let cv := w.cudaVersion
        let gn := w.gpuName
        let gm := w.gpuMemText
        ([Event.log "Importing dependencies...",
          Event.log s!"✓ PyTorch version: {tv}",
          Event.log "✓ CUDA available: True",
          Event.log s!"✓ CUDA version: {cv}",
          Event.log s!"✓ GPU: {gn}",
          Event.log s!"✓ GPU memory: {gm} GB",
          Event.log ""], .cont ())
      else
        ([Event.log "Importing dependencies...",
          Event.log s!"✓ PyTorch version: {tv}",
          Event.log "✓ CUDA available: False",
          Event.log "ERROR: CUDA not available"], .halt)

/-- The environment-toggle block (lines 63-68): the pipeline's only
mutations of the process environment. -/
def envSetup : List Event :=
  [Event.log "Setting up environment...",
   Event.setEnv "OPENCV_IO_ENABLE_OPENEXR" "1",
   Event.setEnv "PYTORCH_CUDA_ALLOC_CONF" "expandable_segments:True",
   Event.log "✓ Environment configured",
   Event.log ""]

/-- Stage 3a, the guarded network retrieval (lines 70-79). -/
def fetchImage (w : World) (url : String) : List Event × StageOut Nat :=
  match w.fetch with
  | .error e =>
      ([Event.log "Downloading input image...",
        Event.netGet url,
        Event.log s!"ERROR: Failed to download image: {e}"], .halt)
  | .ok n =>
      ([Event.log "Downloading input image...",
        Event.netGet url], .cont n)

/-- Persisting the raw bytes to `/tmp/input.png` (lines 81-84).  This block
is NOT inside any `try`: a failure raises out of `main`. -/
def persistTmp (w : World) (n : Nat) : List Event × StageOut Nat :=
  match w.tmpWrite with
  | .error e => ([], .raise e)
  | .ok _ =>
      ([Event.writeTmp inputPath,
        Event.log s!"✓ Downloaded: {n} bytes"], .cont n)

/-- Stage 3b, the guarded decode (lines 86-94). -/
def decodeImage (w : World) : List Event × StageOut (Nat × Nat) :=
  match w.decode with
  | .error e =>
      ([Event.log s!"ERROR: Failed to load image: {e}"], .halt)
  | .ok (a, b) =>
      ([Event.log s!"✓ Image size: ({a}, {b})",
        Event.log ""], .cont (a, b))

/-- One-marker model cache (`config.json` under `modelPath`). -/
structure ModelFS where
  configExists : Bool
  deriving DecidableEq, Repr

/-- The cache-check-and-download block of the Model Provisioner
(lines 105-121), as a function of the cache state: on the marker file the
download is skipped; on a miss `snapshot_download` is called, and on its
success the directory (hence the marker) is populated.  Returns the new
cache state, the events, and the block's outcome. -/
def provisionModel (fs : ModelFS) (dl : Except String Unit) :
    ModelFS × List Event × Except String Unit :=
  if fs.configExists then
    (fs, [Event.log s!"✓ Using cached model at {modelPath}"], .ok ())
  else
    match dl with
    | .ok _ =>
        (⟨true⟩,
         [Event.log "Model not cached, downloading from HuggingFace...",
          Event.snapshotDownload repoId,
          Event.log "✓ Model downloaded"], .ok ())
    | .error e =>
        (fs,
         [Event.log "Model not cached, downloading from HuggingFace...",
          Event.snapshotDownload repoId], .error e)

/-- Stage 4, Model Provisioner (lines 96-141): imports, cache/download,
`from_pretrained`, `.cuda()`, and the memory report, all under one `try`
whose handler logs `ERROR: Failed to load model` and returns False. -/
def loadModel (w : World) : List Event × StageOut Unit :=
  match w.trellisImport with
  | .error e =>
      ([Event.log "Loading TRELLIS.2 model...",
        Event.log s!"ERROR: Failed to load model: {e}"], .halt)
  | .ok _ =>
      let pr := provisionModel ⟨w.configCached⟩ w.download
      let head :=
        [Event.log "Loading TRELLIS.2 model...",
         Event.log "✓ Imports successful"] ++ pr.2.1
      match pr.2.2 with
      | .error e =>
          (head ++ [Event.log s!"ERROR: Failed to load model: {e}"], .halt)
      | .ok _ =>
          match w.loadPipe with
          | .error e =>
              (head ++
               [Event.log "Loading pipeline...",
                Event.loadPipeline modelPath,
                Event.log s!"ERROR: Failed to load model: {e}"], .halt)
          | .ok _ =>
              match w.toCuda with
              | .error e =>
                  (head ++
                   [Event.log "Loading pipeline...",
                    Event.loadPipeline modelPath,
                    Event.log "✓ Pipeline loaded",
                    Event.log "Moving to CUDA...",
                    Event.moveCuda,
                    Event.log s!"ERROR: Failed to load model: {e}"], .halt)
              | .ok _ =>
                  let ma := w.memAllocText
                  let mr := w.memReservedText
                  (head ++
                   [Event.log "Loading pipeline...",
                    Event.loadPipeline modelPath,
                    Event.log "✓ Pipeline loaded",
                    Event.log "Moving to CUDA...",
                    Event.moveCuda,
                    Event.log "✓ Pipeline on GPU",
                    Event.log s!"✓ GPU memory allocated: {ma} GB",
                    Event.log s!"✓ GPU memory reserved: {mr} GB",
                    Event.log ""], .cont ())

/-- Stage 5a, Inference Runner (lines 143-160): one forward pass; an empty
candidate list or a raised error logs an ERROR and returns False. -/
def generateMesh (w : World) : List Event × StageOut Mesh :=
  let head :=
    [Event.log "Generating 3D asset...",
     Event.log "This may take 10-60 seconds depending on resolution...",
     Event.runInference]
  match w.generate with
  | .error e =>
      (head ++ [Event.log s!"ERROR: Generation failed: {e}"], .halt)
  | .ok [] =>
      (head ++ [Event.log "ERROR: No mesh generated (empty output)"], .halt)
  | .ok (m :: _) =>
      let mv := m.vertices
      let mf := m.faces
      (head ++
       [Event.log s!"✓ Generated: {mv} vertices, {mf} faces",
        Event.log ""], .cont m)

/-- Stage 5b, the best-effort simplification (lines 162-170): failure is a
WARNING and the original mesh flows on; either way the stage continues. -/
def simplifyMesh (w : World) (m : Mesh) : List Event × StageOut Mesh :=
  match w.simplify m with
  | .ok m2 =>
      let v := m2.vertices
      let f := m2.faces
      ([Event.log "Simplifying mesh...",
        Event.simplifyCall nvdiffrastLimit,
        Event.log s!"✓ Simplified: {v} vertices, {f} faces",
        Event.log ""], .cont m2)
  | .error e =>
      ([Event.log "Simplifying mesh...",
        Event.simplifyCall nvdiffrastLimit,
        Event.log s!"WARNING: Simplification failed: {e}",
        Event.log ""], .cont m)

/-- Stage 6, Exporter (lines 172-200): `to_glb` + `glb.export` +
`os.path.getsize` under one `try`.  (The `, ... MB` float suffix of the
success line is elided.) -/
def exportGlb (c : Config) (w : World) (m : Mesh) :
    List Event × StageOut Unit :=
  let glbPath := c.artifactDir ++ "/output.glb"
  match w.exportOp m with
  | .error e =>
      ([Event.log "Exporting to GLB...",
        Event.exportCall m,
        Event.log s!"ERROR: Export failed: {e}"], .halt)
  | .ok size =>
      ([Event.log "Exporting to GLB...",
        Event.exportCall m,
        Event.writeGlb glbPath,
        Event.log s!"✓ Exported: {glbPath} ({size} bytes)",
        Event.log ""], .cont ())

/-- Stages 3-6 of `main`, from the image download onward. -/
def pipelineTail (c : Config) (w : World) (url : String) :
    List Event × StageOut Unit :=
  step (fetchImage w url) fun n =>
    step (persistTmp w n) fun _ =>
      step (decodeImage w) fun _ =>
        step (loadModel w) fun _ =>
          step (generateMesh w) fun m =>
            step (simplifyMesh w m) fun m2 =>
              exportGlb c w m2

/-- Wrap the pipeline outcome into `main`'s return value: full success
prints the SUCCESS banner and returns True; a guarded failure returned
False; an uncaught exception escapes. -/
def finish (x : List Event × StageOut Unit) : List Event × MainRes :=
  match x with
  | (tr, .cont _) => (tr ++ successBanner, .ret true)
  | (tr, .halt) => (tr, .ret false)
  | (tr, .raise e) => (tr, .raise e)

/-- `main()` (lines 27-205): the six stages in order. -/
def main (c : Config) (w : World) : List Event × MainRes :=
  finish (prepend bannerEvents
    (step (checkEnv c) fun url =>
      step (importDeps w) fun _ =>
        prepend envSetup (pipelineTail c w url)))

/-- The `__main__` block (lines 207-222): run `main` under a catch-all
handler, log the terminal line, close the log in `finally`, and
`sys.exit(0)` unconditionally.  The second component is the exit code. -/
def entry (c : Config) (w : World) : List Event × Nat :=
  match main c w with
  | (tr, .ret true) =>
      ([Event.openLog] ++ tr ++
       [Event.log "\nTask completed successfully (exit 0)",
        Event.closeLog], 0)
  | (tr, .ret false) =>
      ([Event.openLog] ++ tr ++
       [Event.log "\nTask completed with errors (exit 0)",
        Event.closeLog], 0)
  | (tr, .raise e) =>
      ([Event.openLog] ++ tr ++
       [Event.log s!"\nFATAL ERROR: {e}",
        Event.log "\nTask completed with exception (exit 0)",
        Event.closeLog], 0)

/-- `open(log_path, 'w')` (line 23): mode `w` truncates whatever a previous
run left in the file. -/
def openW (_prev : String) : String := ""

/-- One `Tee.write` to the run log: appends to the current contents. -/
def teeWrite (contents msg : String) : String := contents ++ msg

/-- Contents of `run.log` after a run that starts from a file holding
`prev` and writes `msgs` in order. -/
def runLog (prev : String) (msgs : List String) : String :=
  List.foldl teeWrite (openW prev) msgs

/-- `e` is one of the two environment mutations of the prober block. -/
def isEnvMut : Event → Bool
  | .setEnv _ _ => true
  | _ => false

/-- The download of the provisioner block was performed to completion:
`snapshot_download` was called and the block ended without an exception. -/
def performedDownload (x : List Event × Except String Unit) : Bool :=
  if Event.snapshotDownload repoId ∈ x.1 then
    (match x.2 with | .ok _ => true | .error _ => false)
  else false

/-- A sample mesh for concrete witnesses. -/
def sampleMesh : Mesh := ⟨100, 200, 1, 2, 3, 4⟩

/-- The sample image locator used in witnesses. -/
def urlA : String := "https://example.com/in.png"

/-- Error message of the failing simplification in the C2 witness. -/
def boomMsg : String := "index out of range"

/-- Error message of the failing temp-file write in the C10 witness. -/
def tmpErrMsg : String := "No space left on device"

/-- A fully-populated configuration for witnesses. -/
def cfgA : Config :=
  { imageUrl := some urlA, hfToken := none, artifactDir := "/opt/artifact" }

/-- The witness configuration with `IMAGE_URL` unset. -/
def cfgNone : Config :=
  { imageUrl := none, hfToken := none, artifactDir := "/opt/artifact" }

/-- The all-successful world: every oracle call succeeds. -/
def worldA : World where
  depsImport := .ok ()
  torchVersion := "2.4.0"
  cudaAvailable := true
  cudaVersion := "12.1"
  gpuName := "NVIDIA H100"
  gpuMemText := "80.00"
  fetch := .ok 1000
  tmpWrite := .ok ()
  decode := .ok (512, 512)
  trellisImport := .ok ()
  configCached := true
  download := .ok ()
  loadPipe := .ok ()
  toCuda := .ok ()
  memAllocText := "8.00"
  memReservedText := "9.00"
  generate := .ok [sampleMesh]
  simplify := fun m => .ok m
  exportOp := fun _ => .ok 123456

/-- The C2-witness world: a cold-cache run (marker absent, download
succeeds) whose simplification raises. -/
def worldSimpFail : World :=
  { worldA with configCached := false, simplify := fun _ => .error boomMsg }

/-- The C6-witness world: a cold-cache run whose generation returns an
empty candidate list. -/
def worldEmptyGen : World :=
  { worldA with configCached := false, generate := .ok [] }

/-- The C10-witness world: writing `/tmp/input.png` raises. -/
def worldTmpFail : World :=
  { worldA with tmpWrite := .error tmpErrMsg }

/-- The log lines a run prints before the environment-toggle mutations,
when stages 1 and 2 pass (banner, stage 1, stage 2, and the
`Setting up environment...` line). -/
def preStrings (w : World) (url : String) : List String :=
  let tv := w.torchVersion
  let cv := w.cudaVersion
  let gn := w.gpuName
  let gm := w.gpuMemText
  [line60, "TRELLIS.2 Image-to-3D Generator for Sakura DOK", line60, "",
   "Checking environment...", s!"IMAGE_URL: {url}", "",
   "Importing dependencies...", s!"✓ PyTorch version: {tv}",
   "✓ CUDA available: True", s!"✓ CUDA version: {cv}", s!"✓ GPU: {gn}",
   s!"✓ GPU memory: {gm} GB", "", "Setting up environment..."]

/-! ## Helper lemmas -/

/-- String append is associative (via the underlying character lists). -/
theorem string_append_assoc (a b c : String) :
    a ++ b ++ c = a ++ (b ++ c) := by
  apply String.ext
  simp [String.data_append, List.append_assoc]

/-- Every within-run write sequence only appends: the contents after the
writes extend the contents before them. -/
theorem foldl_teeWrite_append (msgs : List String) (content : String) :
    ∃ s, List.foldl teeWrite content msgs = content ++ s := by
  induction msgs generalizing content with
  | nil => exact ⟨"", by simp [String.append_empty]⟩
  | cons m ms ih =>
      obtain ⟨s, hs⟩ := ih (content ++ m)
      exact ⟨m ++ s, by simp [List.foldl, teeWrite, hs, string_append_assoc]⟩

/-- `step` preserves a per-event property of the traces. -/
theorem step_forall {α β : Type} (P : Event → Prop)
    (x : List Event × StageOut α) (f : α → List Event × StageOut β)
    (hx : ∀ e ∈ x.1, P e) (hf : ∀ a, ∀ e ∈ (f a).1, P e) :
    ∀ e ∈ (step x f).1, P e := by
  rcases x with ⟨tr, o⟩
  cases o with
  | cont a =>
      intro e he
      rcases List.mem_append.1 he with h | h
      · exact hx e h
      · exact hf a e h
  | halt => exact hx
  | raise e => exact hx

theorem provisionModel_no_env (fs : ModelFS) (dl : Except String Unit) :
    ∀ e ∈ (provisionModel fs dl).2.1, isEnvMut e = false := by
  rcases fs with ⟨ce⟩
  cases ce <;> cases dl <;> simp [provisionModel, isEnvMut]

theorem fetchImage_no_env (w : World) (url : String) :
    ∀ e ∈ (fetchImage w url).1, isEnvMut e = false := by
  cases hf : w.fetch <;> simp [fetchImage, hf, isEnvMut]

theorem persistTmp_no_env (w : World) (n : Nat) :
    ∀ e ∈ (persistTmp w n).1, isEnvMut e = false := by
  cases ht : w.tmpWrite <;> simp [persistTmp, ht, isEnvMut]

theorem decodeImage_no_env (w : World) :
    ∀ e ∈ (decodeImage w).1, isEnvMut e = false := by
  cases hd : w.decode with
  | error e => simp [decodeImage, hd, isEnvMut]
  | ok p => obtain ⟨a, b⟩ := p; simp [decodeImage, hd, isEnvMut]

theorem loadModel_no_env (w : World) :
    ∀ e ∈ (loadModel w).1, isEnvMut e = false := by
  have hp := provisionModel_no_env ⟨w.configCached⟩ w.download
  have key : ∀ tail : List Event, (∀ e ∈ tail, isEnvMut e = false) →
      ∀ e ∈ ([Event.log "Loading TRELLIS.2 model...",
               Event.log "✓ Imports successful"] ++
              (provisionModel ⟨w.configCached⟩ w.download).2.1) ++ tail,
      isEnvMut e = false := by
    intro tail htail ev hev
    rcases List.mem_append.1 hev with h | h
    · rcases List.mem_append.1 h with h2 | h2
      · fin_cases h2 <;> rfl
      · exact hp ev h2
    · exact htail ev h
  cases hti : w.trellisImport with
  | error e => simp [loadModel, hti, isEnvMut]
  | ok u =>
      cases hpr : (provisionModel ⟨w.configCached⟩ w.download).2.2 with
      | error e =>
          simp only [loadModel, hti, hpr]
          exact key _ (by simp [isEnvMut])
      | ok u2 =>
          cases hlp : w.loadPipe with
          | error e =>
              simp only [loadModel, hti, hpr, hlp]
              exact key _ (by simp [isEnvMut])
          | ok u3 =>
              cases htc : w.toCuda with
              | error e =>
                  simp only [loadModel, hti, hpr, hlp, htc]
                  exact key _ (by simp [isEnvMut])
              | ok u4 =>
                  simp only [loadModel, hti, hpr, hlp, htc]
                  exact key _ (by simp [isEnvMut])

theorem generateMesh_no_env (w : World) :
    ∀ e ∈ (generateMesh w).1, isEnvMut e = false := by
  cases hg : w.generate with
  | error e => simp [generateMesh, hg, isEnvMut]
  | ok ms => cases ms <;> simp [generateMesh, hg, isEnvMut]

theorem simplifyMesh_no_env (w : World) (m : Mesh) :
    ∀ e ∈ (simplifyMesh w m).1, isEnvMut e = false := by
  cases hs : w.simplify m <;> simp [simplifyMesh, hs, isEnvMut]

theorem exportGlb_no_env (c : Config) (w : World) (m : Mesh) :
    ∀ e ∈ (exportGlb c w m).1, isEnvMut e = false := by
  cases he : w.exportOp m <;> simp [exportGlb, he, isEnvMut]

/-- Stages 3-6 never mutate the process environment. -/
theorem pipelineTail_no_env (c : Config) (w : World) (url : String) :
    ∀ e ∈ (pipelineTail c w url).1, isEnvMut e = false := by
  unfold pipelineTail
  refine step_forall _ _ _ (fetchImage_no_env w url) fun n => ?_
  refine step_forall _ _ _ (persistTmp_no_env w n) fun _ => ?_
  refine step_forall _ _ _ (decodeImage_no_env w) fun _ => ?_
  refine step_forall _ _ _ (loadModel_no_env w) fun _ => ?_
  refine step_forall _ _ _ (generateMesh_no_env w) fun m => ?_
  exact step_forall _ _ _ (simplifyMesh_no_env w m) fun m2 =>
    exportGlb_no_env c w m2

theorem successBanner_no_env : ∀ e ∈ successBanner, isEnvMut e = false := by
  simp [successBanner, isEnvMut]

/-- The provisioner block never writes the artifact file. -/
theorem provisionModel_no_glb (fs : ModelFS) (dl : Except String Unit)
    (p : String) : Event.writeGlb p ∉ (provisionModel fs dl).2.1 := by
  rcases fs with ⟨ce⟩
  cases ce <;> cases dl <;> simp [provisionModel]

/-- The provisioner block never calls the mesh simplification. -/
theorem provisionModel_no_simplify (fs : ModelFS) (dl : Except String Unit)
    (t : Nat) : Event.simplifyCall t ∉ (provisionModel fs dl).2.1 := by
  rcases fs with ⟨ce⟩
  cases ce <;> cases dl <;> simp [provisionModel]

/-- The provisioner block never calls the exporter. -/
theorem provisionModel_no_export (fs : ModelFS) (dl : Except String Unit)
    (m : Mesh) : Event.exportCall m ∉ (provisionModel fs dl).2.1 := by
  rcases fs with ⟨ce⟩
  cases ce <;> cases dl <;> simp [provisionModel]

/-- Members of a mapped log-line list are log events. -/
theorem mem_map_log (l : List String) :
    ∀ e ∈ l.map Event.log, ∃ s, e = Event.log s := by
  intro e he
  obtain ⟨s, _, rfl⟩ := List.mem_map.1 he
  exact ⟨s, rfl⟩

/-! ## Claims -/

/-- Claim C1: for every terminal condition of a run — normal success, any
failure caught at a stage boundary (`main` returns False), and any uncaught
exception reaching the top-level handler — the process terminates with exit
code 0. -/
theorem exit_code_always_zero (c : Config) (w : World) :
    (entry c w).2 = 0 := by
  unfold entry
  rcases h : main c w with ⟨tr, r⟩
  cases r with
  | ret b => cases b <;> rfl
  | raise e => rfl

/-- Claim C4: for every run in which the required image locator
configuration value is absent, the pipeline halts at stage 1 (the whole
trace is the banner plus the stage-1 diagnostics, and `main` returns False)
and no network call is ever made (no GET, no snapshot download). -/
theorem missing_image_url_halts_stage1 (c : Config) (w : World)
    (h : c.imageUrl = none) :
    main c w = (bannerEvents ++
      [Event.log "Checking environment...",
       Event.log "ERROR: IMAGE_URL environment variable not set"],
      .ret false) ∧
    (∀ u, Event.netGet u ∉ (main c w).1) ∧
    (∀ r, Event.snapshotDownload r ∉ (main c w).1) := by
  have hm : main c w = (bannerEvents ++
      [Event.log "Checking environment...",
       Event.log "ERROR: IMAGE_URL environment variable not set"],
      .ret false) := by
    simp [main, checkEnv, h, step, prepend, finish]
  refine ⟨hm, ?_, ?_⟩ <;> intro x <;> rw [hm] <;> simp [bannerEvents]

/-- Witness for C4 at a concrete configuration with `IMAGE_URL` unset. -/
theorem missing_image_url_halts_stage1_witness :
    main cfgNone worldA = (bannerEvents ++
      [Event.log "Checking environment...",
       Event.log "ERROR: IMAGE_URL environment variable not set"],
      .ret false) ∧
    (∀ u, Event.netGet u ∉ (main cfgNone worldA).1) ∧
    (∀ r, Event.snapshotDownload r ∉ (main cfgNone worldA).1) :=
  missing_image_url_halts_stage1 cfgNone worldA rfl

/-- Claim C5: for every run in which the accelerator is unavailable, the
pipeline halts (`main` returns False) before any download occurs: no image
GET, no snapshot download, no temp-file write, and no model load. -/
theorem cuda_unavailable_halts_before_downloads (c : Config) (w : World)
    (h : w.cudaAvailable = false) :
    (main c w).2 = .ret false ∧
    (∀ u, Event.netGet u ∉ (main c w).1) ∧
    (∀ r, Event.snapshotDownload r ∉ (main c w).1) ∧
    (∀ p, Event.writeTmp p ∉ (main c w).1) ∧
    (∀ p, Event.loadPipeline p ∉ (main c w).1) := by
  cases hc : c.imageUrl with
  | none =>
      refine ⟨?_, ?_, ?_, ?_, ?_⟩ <;>
        simp [main, checkEnv, hc, step, prepend, finish, bannerEvents]
  | some url =>
      cases hd : w.depsImport with
      | error e =>
          refine ⟨?_, ?_, ?_, ?_, ?_⟩ <;>
            simp [main, checkEnv, importDeps, hc, hd, step, prepend, finish,
              bannerEvents]
      | ok u =>
          refine ⟨?_, ?_, ?_, ?_, ?_⟩ <;>
            simp [main, checkEnv, importDeps, hc, hd, h, step, prepend,
              finish, bannerEvents]

/-- Witness for C5 at a concrete world whose CUDA probe fails. -/
theorem cuda_unavailable_halts_before_downloads_witness :
    (main cfgA { worldA with cudaAvailable := false }).2 = .ret false ∧
    (∀ u, Event.netGet u ∉
      (main cfgA { worldA with cudaAvailable := false }).1) ∧
    (∀ r, Event.snapshotDownload r ∉
      (main cfgA { worldA with cudaAvailable := false }).1) ∧
    (∀ p, Event.writeTmp p ∉
      (main cfgA { worldA with cudaAvailable := false }).1) ∧
    (∀ p, Event.loadPipeline p ∉
      (main cfgA { worldA with cudaAvailable := false }).1) :=
  cuda_unavailable_halts_before_downloads cfgA
    { worldA with cudaAvailable := false } rfl

/-- Claim C7: running the Model Provisioner twice with the same cache
directory performs the remote snapshot download to completion at most once,
and once the marker file (`config.json`) is present a provisioner run
short-circuits to the cached-model path: it logs the cached-model line,
calls no download, and succeeds (so the model is then loaded from the local
directory). -/
theorem provisioner_idempotent (fs : ModelFS) (d1 d2 : Except String Unit) :
    (performedDownload (provisionModel fs d1).2).toNat +
      (performedDownload
        (provisionModel (provisionModel fs d1).1 d2).2).toNat ≤ 1 ∧
    (∀ d, provisionModel ⟨true⟩ d =
      (⟨true⟩, [Event.log s!"✓ Using cached model at {modelPath}"],
       Except.ok ())) := by
  constructor
  · rcases fs with ⟨ce⟩
    cases ce <;> cases d1 <;> cases d2 <;>
      simp [provisionModel, performedDownload]
  · intro d
    simp [provisionModel]

/-- Claim C8, counterexample: the run log is opened with mode `w`, which
truncates, so content from a previous run IS destroyed — starting from a
file holding `PREVIOUS`, after a run writing `alpha` the file holds only
`alpha`, not the claimed preserved `PREVIOUS` + `alpha`. -/
theorem run_log_truncates_previous :
    runLog "PREVIOUS" ["alpha"] = "alpha" ∧
    runLog "PREVIOUS" ["alpha"] ≠ "PREVIOUS" ++ "alpha" := by
  constructor
  · rfl
  · decide

/-- Claim C8, amended: the run log is opened at process start before any
stage runs — in write mode, truncating any content from a previous run —
every write during the run only appends, and the file is closed at process
end regardless of outcome (the trace of every run starts with the log-file
open and ends with its close). -/
theorem run_log_lifecycle :
    (∀ prev, openW prev = "") ∧
    (∀ content msgs, ∃ s, List.foldl teeWrite content msgs = content ++ s) ∧
    (∀ c w, ∃ mid, (entry c w).1 = Event.openLog :: mid ++ [Event.closeLog]) := by
  refine ⟨fun _ => rfl, fun content msgs => foldl_teeWrite_append msgs content,
    fun c w => ?_⟩
  unfold entry
  rcases h : main c w with ⟨tr, r⟩
  cases r with
  | ret b =>
      cases b
      · exact ⟨tr ++ [Event.log "\nTask completed with errors (exit 0)"],
          by simp⟩
      · exact ⟨tr ++ [Event.log "\nTask completed successfully (exit 0)"],
          by simp⟩
  | raise e =>
      exact ⟨tr ++ [Event.log s!"\nFATAL ERROR: {e}",
        Event.log "\nTask completed with exception (exit 0)"], by simp⟩

/-- Claim C2: for every run in which the mesh simplification step raises an
error, the failure is logged as a WARNING line (the simplification stage
logs exactly `Simplifying mesh...`, the call, the `WARNING:` line and a
blank — no ERROR line — and continues with the original mesh), the mesh
passed to the Exporter is the unsimplified mesh `m` unchanged, and the
export stage still runs.  Hypothesis `h8` is provisioning success — the
cache-check-and-download block ends without an exception — which covers
both a cache hit and a cold-cache run whose download succeeds. -/
theorem simplify_failure_nonfatal (c : Config) (w : World) (url : String)
    (n a b : Nat) (m : Mesh) (ms : List Mesh) (e : String)
    (h1 : c.imageUrl = some url) (h2 : w.depsImport = .ok ())
    (h3 : w.cudaAvailable = true) (h4 : w.fetch = .ok n)
    (h5 : w.tmpWrite = .ok ()) (h6 : w.decode = .ok (a, b))
    (h7 : w.trellisImport = .ok ())
    (h8 : (provisionModel ⟨w.configCached⟩ w.download).2.2 = .ok ())
    (h9 : w.loadPipe = .ok ()) (h10 : w.toCuda = .ok ())
    (h11 : w.generate = .ok (m :: ms)) (h12 : w.simplify m = .error e) :
    simplifyMesh w m = ([Event.log "Simplifying mesh...",
      Event.simplifyCall nvdiffrastLimit,
      Event.log s!"WARNING: Simplification failed: {e}",
      Event.log ""], .cont m) ∧
    Event.log s!"WARNING: Simplification failed: {e}" ∈ (main c w).1 ∧
    Event.exportCall m ∈ (main c w).1 := by
  refine ⟨by simp [simplifyMesh, h12], ?_, ?_⟩ <;>
    cases he : w.exportOp m <;>
      simp [main, pipelineTail, step, prepend, finish, checkEnv, importDeps,
        envSetup, fetchImage, persistTmp, decodeImage, loadModel,
        generateMesh, simplifyMesh, exportGlb, bannerEvents,
        successBanner, h1, h2, h3, h4, h5, h6, h7, h8, h9, h10, h11, h12, he]

/-- Witness for C2: in `worldSimpFail` the simplification of `sampleMesh`
raises, the WARNING is logged, and export still receives `sampleMesh`. -/
theorem simplify_failure_nonfatal_witness :
    simplifyMesh worldSimpFail sampleMesh =
      ([Event.log "Simplifying mesh...",
        Event.simplifyCall nvdiffrastLimit,
        Event.log s!"WARNING: Simplification failed: {boomMsg}",
        Event.log ""], .cont sampleMesh) ∧
    Event.log s!"WARNING: Simplification failed: {boomMsg}" ∈
      (main cfgA worldSimpFail).1 ∧
    Event.exportCall sampleMesh ∈ (main cfgA worldSimpFail).1 :=
  simplify_failure_nonfatal cfgA worldSimpFail urlA 1000 512 512 sampleMesh
    [] boomMsg rfl rfl rfl rfl rfl rfl rfl rfl rfl rfl rfl rfl

/-- Claim C6: for every run in which the generation call returns an empty
set of candidate meshes, the run halts with the log line
`ERROR: No mesh generated (empty output)`, no simplification or export is
attempted, `main` returns False, and the process still exits 0.
Hypothesis `h8` is provisioning success — the cache-check-and-download
block ends without an exception — covering both a cache hit and a
cold-cache run whose download succeeds. -/
theorem empty_generation_halts (c : Config) (w : World) (url : String)
    (n a b : Nat)
    (h1 : c.imageUrl = some url) (h2 : w.depsImport = .ok ())
    (h3 : w.cudaAvailable = true) (h4 : w.fetch = .ok n)
    (h5 : w.tmpWrite = .ok ()) (h6 : w.decode = .ok (a, b))
    (h7 : w.trellisImport = .ok ())
    (h8 : (provisionModel ⟨w.configCached⟩ w.download).2.2 = .ok ())
    (h9 : w.loadPipe = .ok ()) (h10 : w.toCuda = .ok ())
    (hg : w.generate = .ok []) :
    Event.log "ERROR: No mesh generated (empty output)" ∈ (main c w).1 ∧
    (∀ t, Event.simplifyCall t ∉ (main c w).1) ∧
    (∀ m, Event.exportCall m ∉ (main c w).1) ∧
    (main c w).2 = .ret false ∧
    (entry c w).2 = 0 := by
  refine ⟨?_, ?_, ?_, ?_, ?_⟩ <;>
    simp [entry, main, pipelineTail, step, prepend, finish, checkEnv,
      importDeps, envSetup, fetchImage, persistTmp, decodeImage, loadModel,
      provisionModel_no_simplify, provisionModel_no_export, generateMesh,
      bannerEvents, successBanner,
      h1, h2, h3, h4, h5, h6, h7, h8, h9, h10, hg]

/-- Witness for C6 at the concrete world whose generation is empty. -/
theorem empty_generation_halts_witness :
    Event.log "ERROR: No mesh generated (empty output)" ∈
      (main cfgA worldEmptyGen).1 ∧
    (∀ t, Event.simplifyCall t ∉ (main cfgA worldEmptyGen).1) ∧
    (∀ m, Event.exportCall m ∉ (main cfgA worldEmptyGen).1) ∧
    (main cfgA worldEmptyGen).2 = .ret false ∧
    (entry cfgA worldEmptyGen).2 = 0 :=
  empty_generation_halts cfgA worldEmptyGen urlA 1000 512 512
    rfl rfl rfl rfl rfl rfl rfl rfl rfl rfl rfl

/-- Claim C10: for every run in which persisting the downloaded raw image
bytes to `/tmp/input.png` raises, the error is not caught by the Asset
Fetcher's guarded region (the fetch stage completes with just its two
events and no `ERROR: Failed to download image` line; the write block
raises out of `main`), it propagates to the top-level handler which logs it
as FATAL, and the process still exits 0. -/
theorem tmp_write_error_uncaught (c : Config) (w : World) (url : String)
    (n : Nat) (e : String)
    (h1 : c.imageUrl = some url) (h2 : w.depsImport = .ok ())
    (h3 : w.cudaAvailable = true) (h4 : w.fetch = .ok n)
    (h5 : w.tmpWrite = .error e) :
    fetchImage w url = ([Event.log "Downloading input image...",
      Event.netGet url], .cont n) ∧
    persistTmp w n = ([], .raise e) ∧
    (main c w).2 = .raise e ∧
    Event.log s!"\nFATAL ERROR: {e}" ∈ (entry c w).1 ∧
    (entry c w).2 = 0 := by
  have hraise : (main c w).2 = .raise e := by
    simp [main, pipelineTail, step, prepend, finish, checkEnv, importDeps,
      envSetup, fetchImage, persistTmp, h1, h2, h3, h4, h5]
  rcases hm : main c w with ⟨tr, r⟩
  rw [hm] at hraise
  simp only at hraise
  subst hraise
  refine ⟨by simp [fetchImage, h4], by simp [persistTmp, h5],
    by simp [hm], ?_, ?_⟩ <;> simp [entry, hm]

/-- Witness for C10 at the concrete world whose temp-file write raises. -/
theorem tmp_write_error_uncaught_witness :
    fetchImage worldTmpFail urlA = ([Event.log "Downloading input image...",
      Event.netGet urlA], .cont 1000) ∧
    persistTmp worldTmpFail 1000 = ([], .raise tmpErrMsg) ∧
    (main cfgA worldTmpFail).2 = .raise tmpErrMsg ∧
    Event.log s!"\nFATAL ERROR: {tmpErrMsg}" ∈ (entry cfgA worldTmpFail).1 ∧
    (entry cfgA worldTmpFail).2 = 0 :=
  tmp_write_error_uncaught cfgA worldTmpFail urlA 1000 tmpErrMsg
    rfl rfl rfl rfl rfl

/-- Claim C3: the artifact file `output.glb` is written if and only if the
run passes every stage through export (`main` returns True); for every run
in which any stage fails before export completes, no `output.glb` write
occurs. -/
theorem glb_written_iff_success (c : Config) (w : World) :
    (∃ p, Event.writeGlb p ∈ (main c w).1) ↔ (main c w).2 = .ret true := by
  cases hc : c.imageUrl with
  | none =>
      simp [main, pipelineTail, step, prepend, finish, checkEnv, hc,
        bannerEvents]
  | some url =>
    cases hd : w.depsImport with
    | error e =>
        simp [main, pipelineTail, step, prepend, finish, checkEnv,
          importDeps, hc, hd, bannerEvents]
    | ok u =>
      cases hcu : w.cudaAvailable with
      | false =>
          simp [main, pipelineTail, step, prepend, finish, checkEnv,
            importDeps, hc, hd, hcu, bannerEvents]
      | true =>
        cases hf : w.fetch with
        | error e =>
            simp [main, pipelineTail, step, prepend, finish, checkEnv,
              importDeps, envSetup, fetchImage, hc, hd, hcu, hf,
              bannerEvents]
        | ok n =>
          cases htw : w.tmpWrite with
          | error e =>
              simp [main, pipelineTail, step, prepend, finish, checkEnv,
                importDeps, envSetup, fetchImage, persistTmp, hc, hd, hcu,
                hf, htw, bannerEvents]
          | ok u2 =>
            cases hde : w.decode with
            | error e =>
                simp [main, pipelineTail, step, prepend, finish, checkEnv,
                  importDeps, envSetup, fetchImage, persistTmp, decodeImage,
                  hc, hd, hcu, hf, htw, hde, bannerEvents]
            | ok sz =>
              obtain ⟨a, b⟩ := sz
              cases hti : w.trellisImport with
              | error e =>
                  simp [main, pipelineTail, step, prepend, finish, checkEnv,
                    importDeps, envSetup, fetchImage, persistTmp,
                    decodeImage, loadModel, hc, hd, hcu, hf, htw, hde, hti,
                    bannerEvents]
              | ok u3 =>
                cases hpr : (provisionModel ⟨w.configCached⟩ w.download).2.2
                  with
                | error e =>
                    simp [main, pipelineTail, step, prepend, finish,
                      checkEnv, importDeps, envSetup, fetchImage,
                      persistTmp, decodeImage, loadModel,
                      provisionModel_no_glb, hc, hd, hcu, hf, htw, hde, hti,
                      hpr, bannerEvents]
                | ok u4 =>
                  cases hlp : w.loadPipe with
                  | error e =>
                      simp [main, pipelineTail, step, prepend, finish,
                        checkEnv, importDeps, envSetup, fetchImage,
                        persistTmp, decodeImage, loadModel,
                        provisionModel_no_glb, hc, hd, hcu, hf, htw, hde,
                        hti, hpr, hlp, bannerEvents]
                  | ok u5 =>
                    cases htc : w.toCuda with
                    | error e =>
                        simp [main, pipelineTail, step, prepend, finish,
                          checkEnv, importDeps, envSetup, fetchImage,
                          persistTmp, decodeImage, loadModel,
                          provisionModel_no_glb, hc, hd, hcu, hf, htw, hde,
                          hti, hpr, hlp, htc, bannerEvents]
                    | ok u6 =>
                      cases hg : w.generate with
                      | error e =>
                          simp [main, pipelineTail, step, prepend, finish,
                            checkEnv, importDeps, envSetup, fetchImage,
                            persistTmp, decodeImage, loadModel,
                            provisionModel_no_glb, generateMesh, hc, hd,
                            hcu, hf, htw, hde, hti, hpr, hlp, htc, hg,
                            bannerEvents]
                      | ok ms =>
                        cases ms with
                        | nil =>
                            simp [main, pipelineTail, step, prepend, finish,
                              checkEnv, importDeps, envSetup, fetchImage,
                              persistTmp, decodeImage, loadModel,
                              provisionModel_no_glb, generateMesh, hc, hd,
                              hcu, hf, htw, hde, hti, hpr, hlp, htc, hg,
                              bannerEvents]
                        | cons m rest =>
                          cases hs : w.simplify m with
                          | ok m2 =>
                            cases he : w.exportOp m2 with
                            | error e =>
                                simp [main, pipelineTail, step, prepend,
                                  finish, checkEnv, importDeps, envSetup,
                                  fetchImage, persistTmp, decodeImage,
                                  loadModel, provisionModel_no_glb,
                                  generateMesh, simplifyMesh, exportGlb, hc,
                                  hd, hcu, hf, htw, hde, hti, hpr, hlp, htc,
                                  hg, hs, he, bannerEvents]
                            | ok size =>
                                simp [main, pipelineTail, step, prepend,
                                  finish, checkEnv, importDeps, envSetup,
                                  fetchImage, persistTmp, decodeImage,
                                  loadModel, provisionModel_no_glb,
                                  generateMesh, simplifyMesh, exportGlb, hc,
                                  hd, hcu, hf, htw, hde, hti, hpr, hlp, htc,
                                  hg, hs, he, bannerEvents, successBanner]
                          | error e2 =>
                            cases he : w.exportOp m with
                            | error e =>
                                simp [main, pipelineTail, step, prepend,
                                  finish, checkEnv, importDeps, envSetup,
                                  fetchImage, persistTmp, decodeImage,
                                  loadModel, provisionModel_no_glb,
                                  generateMesh, simplifyMesh, exportGlb, hc,
                                  hd, hcu, hf, htw, hde, hti, hpr, hlp, htc,
                                  hg, hs, he, bannerEvents]
                            | ok size =>
                                simp [main, pipelineTail, step, prepend,
                                  finish, checkEnv, importDeps, envSetup,
                                  fetchImage, persistTmp, decodeImage,
                                  loadModel, provisionModel_no_glb,
                                  generateMesh, simplifyMesh, exportGlb, hc,
                                  hd, hcu, hf, htw, hde, hti, hpr, hlp, htc,
                                  hg, hs, he, bannerEvents, successBanner]

/-- Claim C9: on every run that reaches asset fetching (stages 1 and 2
pass), the trace splits as `pre ++ [the two environment toggles] ++ post`
where `pre` consists of log lines only — so the image-codec and
allocator-strategy toggles happen strictly before the asset download, the
temp-file write, the decode and the model load, which can only lie in
`post` — and `post` contains no further environment mutation, so the
Dependency Prober block is the only place that mutates the process
environment. -/
theorem env_mutation_scoped (c : Config) (w : World) (url : String)
    (h1 : c.imageUrl = some url) (h2 : w.depsImport = .ok ())
    (h3 : w.cudaAvailable = true) :
    ∃ pre post, (main c w).1 =
      pre ++ (Event.setEnv "OPENCV_IO_ENABLE_OPENEXR" "1" ::
        Event.setEnv "PYTORCH_CUDA_ALLOC_CONF" "expandable_segments:True" ::
        post) ∧
      (∀ e ∈ pre, ∃ s, e = Event.log s) ∧
      (∀ e ∈ post, isEnvMut e = false) := by
  have hcl := pipelineTail_no_env c w url
  rcases hpt : pipelineTail c w url with ⟨ptr, po⟩
  rw [hpt] at hcl
  have hcl2 : ∀ e ∈ ptr, isEnvMut e = false := hcl
  cases po with
  | cont u =>
      refine ⟨(preStrings w url).map Event.log,
        Event.log "✓ Environment configured" :: Event.log "" ::
          (ptr ++ successBanner), ?_, mem_map_log _, ?_⟩
      · simp [main, step, prepend, finish, checkEnv, importDeps, envSetup,
          hpt, h1, h2, h3, preStrings, bannerEvents]
      · intro e he
        simp only [List.mem_cons, List.mem_append] at he
        rcases he with rfl | rfl | h | h
        · rfl
        · rfl
        · exact hcl2 e h
        · exact successBanner_no_env e h
  | halt =>
      refine ⟨(preStrings w url).map Event.log,
        Event.log "✓ Environment configured" :: Event.log "" :: ptr, ?_,
        mem_map_log _, ?_⟩
      · simp [main, step, prepend, finish, checkEnv, importDeps, envSetup,
          hpt, h1, h2, h3, preStrings, bannerEvents]
      · intro e he
        simp only [List.mem_cons] at he
        rcases he with rfl | rfl | h
        · rfl
        · rfl
        · exact hcl2 e h
  | raise e2 =>
      refine ⟨(preStrings w url).map Event.log,
        Event.log "✓ Environment configured" :: Event.log "" :: ptr, ?_,
        mem_map_log _, ?_⟩
      · simp [main, step, prepend, finish, checkEnv, importDeps, envSetup,
          hpt, h1, h2, h3, preStrings, bannerEvents]
      · intro e he
        simp only [List.mem_cons] at he
        rcases he with rfl | rfl | h
        · rfl
        · rfl
        · exact hcl2 e h

/-- Witness for C9 at the all-successful concrete run. -/
theorem env_mutation_scoped_witness :
    ∃ pre post, (main cfgA worldA).1 =
      pre ++ (Event.setEnv "OPENCV_IO_ENABLE_OPENEXR" "1" ::
        Event.setEnv "PYTORCH_CUDA_ALLOC_CONF" "expandable_segments:True" ::
        post) ∧
      (∀ e ∈ pre, ∃ s, e = Event.log s) ∧
      (∀ e ∈ post, isEnvMut e = false) :=
  env_mutation_scoped cfgA worldA urlA rfl rfl rfl

end Trellis2Dok
